import Mathlib

/-
Verification of the adaptive synchronization and reference-counted-lifetime
layer (service mutex header and service_datatype_destroy) against its
natural-language specification.  State that the C code keeps in globals or
behind pointers is passed explicitly; machine integers are modelled as Int
with explicit wrapping where the width matters.
-/

/-- Success return code of the layer (constants header is outside the
fragment; modelled as 0, distinct from the error code). -/
def CCS_SUCCESS : Int := 0

/-- Error return code of the layer (constants header is outside the
fragment; modelled as the conventional -1, distinct from CCS_SUCCESS). -/
def CCS_ERROR : Int := -1

/-- A reference-counted datatype object as seen by service_datatype_destroy.
flags_predefined models the bit test (flags & CCS_DATATYPE_FLAG_PREDEFINED) != 0
and obj_reference_count models pData->super.obj_reference_count (an int32). -/
structure service_datatype_t where
  flags_predefined : Bool
  obj_reference_count : Int
deriving DecidableEq, Repr

/-- The object after a release: still allocated (with its new fields) or freed. -/
inductive ObjState where
  | alive (o : service_datatype_t)
  | freed
deriving DecidableEq, Repr

/-- Modelled from the spec: OBJ_RELEASE, the object system's generic release
operation, is not part of the fragment; the spec says it decrements refCount
and frees the object and its resources if refCount reaches 0. -/
def OBJ_RELEASE (o : service_datatype_t) : ObjState :=
  let o2 : service_datatype_t := ⟨o.flags_predefined, o.obj_reference_count - 1⟩
  if o2.obj_reference_count = 0 then ObjState.freed else ObjState.alive o2

/-- Observable outcome of service_datatype_destroy: the returned code, whether
the caller's handle (*dt) was set to NULL, the state of the object, and how
many times OBJ_RELEASE was invoked. -/
structure DestroyResult where
  ret : Int
  handle_null : Bool
  obj : ObjState
  release_calls : Nat
deriving DecidableEq, Repr

/-- service_datatype_destroy, given the non-null object *dt points at:
if the object is predefined and its reference count is at most 1, return
CCS_ERROR leaving everything untouched; otherwise OBJ_RELEASE it once, set
*dt to NULL and return CCS_SUCCESS. -/
def service_datatype_destroy (pData : service_datatype_t) : DestroyResult :=
  if pData.flags_predefined ∧ pData.obj_reference_count ≤ 1 then
    ⟨CCS_ERROR, false, ObjState.alive pData, 0⟩
  else
    ⟨CCS_SUCCESS, true, OBJ_RELEASE pData, 1⟩

/-- service_datatype_destroy with the pointer dereferences made explicit:
the argument dt may be NULL (outer none) or may point at a NULL object
(inner none); in either case the first two statements of the function
dereference a null pointer (modelled as none) before any check runs. -/
def service_datatype_destroy_deref (dt : Option (Option service_datatype_t)) :
    Option DestroyResult :=
  match dt with
  | none => none
  | some none => none
  | some (some pData) => some (service_datatype_destroy pData)

/-- C1: for every object with the predefined flag set and reference count at
most 1, destroy returns the error code and leaves the object's reference
count and the caller's handle completely unchanged (the handle still points
to the same non-null object, no release happens). -/
theorem C1_destroy_predefined_floor (o : service_datatype_t)
    (hp : o.flags_predefined = true) (hc : o.obj_reference_count ≤ 1) :
    service_datatype_destroy o = ⟨CCS_ERROR, false, ObjState.alive o, 0⟩ := by
  simp [service_datatype_destroy, hp, hc]

theorem C1_destroy_predefined_floor_witness :
    (⟨true, 1⟩ : service_datatype_t).flags_predefined = true ∧
    (⟨true, 1⟩ : service_datatype_t).obj_reference_count ≤ 1 ∧
    service_datatype_destroy ⟨true, 1⟩ = ⟨CCS_ERROR, false, ObjState.alive ⟨true, 1⟩, 0⟩ :=
  ⟨rfl, by decide, C1_destroy_predefined_floor ⟨true, 1⟩ rfl (by decide)⟩

/-- C2: for every object that is not (predefined with count at most 1),
destroy invokes OBJ_RELEASE exactly once — which decrements the count by 1
and frees the object iff the decremented count is 0 — sets the caller's
handle to NULL and returns success. -/
theorem C2_destroy_releases (o : service_datatype_t)
    (h : ¬(o.flags_predefined = true ∧ o.obj_reference_count ≤ 1)) :
    service_datatype_destroy o = ⟨CCS_SUCCESS, true, OBJ_RELEASE o, 1⟩ ∧
    OBJ_RELEASE o = (if o.obj_reference_count - 1 = 0 then ObjState.freed
      else ObjState.alive ⟨o.flags_predefined, o.obj_reference_count - 1⟩) := by
  constructor
  · simp only [service_datatype_destroy, if_neg h]
  · rfl

theorem C2_destroy_releases_witness :
    ¬((⟨false, 1⟩ : service_datatype_t).flags_predefined = true ∧
      (⟨false, 1⟩ : service_datatype_t).obj_reference_count ≤ 1) ∧
    (service_datatype_destroy ⟨false, 1⟩ = ⟨CCS_SUCCESS, true, OBJ_RELEASE ⟨false, 1⟩, 1⟩ ∧
     OBJ_RELEASE (⟨false, 1⟩ : service_datatype_t) =
       (if (1 : Int) - 1 = 0 then ObjState.freed else ObjState.alive ⟨false, 0⟩)) :=
  ⟨by decide, C2_destroy_releases ⟨false, 1⟩ (by decide)⟩

/-- C10: destroy dereferences the handle and then the object it points to
before any check, so its execution avoids a null dereference exactly when the
handle is non-null and points to a non-null object; under that precondition
no null dereference occurs on either branch. -/
theorem C10_destroy_null_deref (dt : Option (Option service_datatype_t)) :
    (service_datatype_destroy_deref dt).isSome = true ↔
      ∃ o, dt = some (some o) := by
  match dt with
  | none => simp [service_datatype_destroy_deref]
  | some none => simp [service_datatype_destroy_deref]
  | some (some o) => simp [service_datatype_destroy_deref]

/-- ccs_set_using_threads with the globals made explicit: multi_threads is the
CCS_ENABLE_MULTI_THREADS build flag and uses the current ccs_uses_threads
global; under multithreading the argument is stored into the global, otherwise
the global is forced to false; the pair is (new global, returned value). -/
def ccs_set_using_threads (multi_threads : Bool) (hv : Bool) (uses : Bool) :
    Bool × Bool :=
  if multi_threads then (hv, hv) else (false, false)

/-- The ccs_using_threads() macro: reads the ccs_uses_threads global. -/
def ccs_using_threads (uses : Bool) : Bool := uses

/-- C7: ccs_set_using_threads stores the requested boolean into the
process-wide hint when the build supports multithreading, forces the hint to
false when it does not, and in both cases returns the resulting hint, which is
exactly what ccs_using_threads subsequently reads. -/
theorem C7_set_using_threads (multi_threads hv uses : Bool) :
    ccs_set_using_threads multi_threads hv uses =
      ((if multi_threads then hv else false), (if multi_threads then hv else false)) ∧
    ccs_using_threads (ccs_set_using_threads multi_threads hv uses).1 =
      (ccs_set_using_threads multi_threads hv uses).2 := by
  cases multi_threads <;> simp [ccs_set_using_threads, ccs_using_threads]

/-- The debug sub-record of a mutex in the CCS_ENABLE_DEBUG non-threaded
build: m_lock_debug is the lock depth, m_lock_file / m_lock_line the recorded
acquisition site (m_lock_file is NULL when cleared). -/
structure service_mutex_t where
  m_lock_debug : Int
  m_lock_file : Option String
  m_lock_line : Int
deriving DecidableEq, Repr

/-- Warnings emitted to the log sink (service_output) by the debug lock
tracker, one constructor per distinct call site in the header. -/
inductive Warning where
  | mutex_double_locked
  | mutex_not_locked
  | lock_already_locked
  | trylock_already_locked
  | scoped_already_locked
deriving DecidableEq, Repr

/-- CCS_THREAD_UNLOCK in the CCS_ENABLE_DEBUG (non-threaded) build: decrement
m_lock_debug; if service_mutex_check_locks and the depth went negative, warn
(the second branch of the source repeats the same test and is kept, though
unreachable); otherwise clear the recorded acquisition site.  Returns the new
mutex and the warnings emitted. -/
def CCS_THREAD_UNLOCK_debug (check_locks : Bool) (m : service_mutex_t) :
    service_mutex_t × List Warning :=
  let m1 : service_mutex_t := { m with m_lock_debug := m.m_lock_debug - 1 }
  if check_locks ∧ m1.m_lock_debug < 0 then
    (m1, [Warning.mutex_double_locked])
  else if check_locks ∧ m1.m_lock_debug < 0 then
    (m1, [Warning.mutex_not_locked])
  else
    ({ m1 with m_lock_file := none, m_lock_line := 0 }, [])

/-- C4 as stated is false: with lock checking disabled, an unlock that drives
the depth negative (here from 0 to -1) emits no warning at all — and the
acquisition site is cleared even though the depth is negative. -/
theorem C4_unlock_counterexample :
    (CCS_THREAD_UNLOCK_debug false ⟨0, some "a.c", 5⟩).1.m_lock_debug = -1 ∧
    (CCS_THREAD_UNLOCK_debug false ⟨0, some "a.c", 5⟩).2 = [] ∧
    (CCS_THREAD_UNLOCK_debug false ⟨0, some "a.c", 5⟩).1.m_lock_file = none := by
  refine ⟨rfl, rfl, rfl⟩

/-- C4 amended: debug unlock decrements the lock depth; a warning is emitted
iff lock checking (service_mutex_check_locks) is enabled and the resulting
depth is negative, and in exactly that case the recorded acquisition site is
left in place — otherwise (checking disabled or depth non-negative) the site
is cleared; the operation always returns normally. -/
theorem C4_unlock_amended (check_locks : Bool) (m : service_mutex_t) :
    (CCS_THREAD_UNLOCK_debug check_locks m).1.m_lock_debug = m.m_lock_debug - 1 ∧
    ((CCS_THREAD_UNLOCK_debug check_locks m).2 = [Warning.mutex_double_locked] ↔
      (check_locks = true ∧ m.m_lock_debug - 1 < 0)) ∧
    ((CCS_THREAD_UNLOCK_debug check_locks m).1.m_lock_file =
      (if check_locks = true ∧ m.m_lock_debug - 1 < 0 then m.m_lock_file else none)) ∧
    ((CCS_THREAD_UNLOCK_debug check_locks m).1.m_lock_line =
      (if check_locks = true ∧ m.m_lock_debug - 1 < 0 then m.m_lock_line else 0)) := by
  have he : (m.m_lock_debug - 1 < 0) ↔ (m.m_lock_debug < 1) := by omega
  by_cases h : check_locks = true ∧ m.m_lock_debug < 1 <;>
    simp [CCS_THREAD_UNLOCK_debug, he, h]

/-- service_thread_debug_trylock from the CCS_ENABLE_DEBUG (non-threaded)
build: if the depth is 0 acquire (depth becomes 1, the caller's file and line
are recorded) and return 0; otherwise return -1, warning iff
service_mutex_check_locks.  Result: (new mutex, return value, warnings). -/
def service_thread_debug_trylock (check_locks : Bool) (file : String)
    (line : Int) (m : service_mutex_t) : service_mutex_t × Int × List Warning :=
  if m.m_lock_debug = 0 then
    ({ m with m_lock_debug := m.m_lock_debug + 1,
              m_lock_file := some file, m_lock_line := line }, 0, [])
  else if check_locks then
    (m, -1, [Warning.trylock_already_locked])
  else
    (m, -1, [])

/-- C6: debug trylock succeeds — depth goes 0 to 1 and the caller's file and
line become the recorded acquisition site — iff the depth was 0 beforehand;
otherwise the mutex is untouched, failure (-1) is reported, and a warning is
emitted exactly when lock checking is enabled. -/
theorem C6_debug_trylock (check_locks : Bool) (file : String) (line : Int)
    (m : service_mutex_t) :
    ((service_thread_debug_trylock check_locks file line m).2.1 = 0 ↔
      m.m_lock_debug = 0) ∧
    ((service_thread_debug_trylock check_locks file line m).1 =
      (if m.m_lock_debug = 0 then ⟨1, some file, line⟩ else m)) ∧
    ((service_thread_debug_trylock check_locks file line m).2.1 = 0 ∨
      (service_thread_debug_trylock check_locks file line m).2.1 = -1) ∧
    ((service_thread_debug_trylock check_locks file line m).2.2 =
      (if m.m_lock_debug ≠ 0 ∧ check_locks = true
        then [Warning.trylock_already_locked] else [])) := by
  by_cases h : m.m_lock_debug = 0
  · simp [service_thread_debug_trylock, h]
  · by_cases hc : check_locks = true <;>
      simp [service_thread_debug_trylock, h, hc]

/-- CCS_THREAD_SCOPED_LOCK in the CCS_ENABLE_DEBUG (non-threaded) build:
warn (unconditionally on service_mutex_check_locks) if the depth is nonzero on
entry, then decrement the depth, run the action on the adjusted mutex, and
increment the depth of whatever mutex the action left behind.  The action is a
state transformer that may also observe the mutex. -/
def CCS_THREAD_SCOPED_LOCK_debug {α : Type} (m : service_mutex_t)
    (action : service_mutex_t → service_mutex_t × α) :
    service_mutex_t × α × List Warning :=
  let w : List Warning :=
    if m.m_lock_debug ≠ 0 then [Warning.scoped_already_locked] else []
  let m1 : service_mutex_t := { m with m_lock_debug := m.m_lock_debug - 1 }
  let p := action m1
  ({ p.1 with m_lock_debug := p.1.m_lock_debug + 1 }, p.2, w)

/-- An action that does not touch the mutex and reports the lock depth it
observes while running. -/
def depth_observer (m : service_mutex_t) : service_mutex_t × Int :=
  (m, m.m_lock_debug)

/-- C5 as stated is false: starting from depth 0, the depth observed while the
action runs is -1 (the macro decrements around the action), not the 1 that an
unchecked lock would produce. -/
theorem C5_scoped_lock_counterexample :
    (CCS_THREAD_SCOPED_LOCK_debug ⟨0, none, 0⟩ depth_observer).2.1 = -1 ∧
    (CCS_THREAD_SCOPED_LOCK_debug ⟨0, none, 0⟩ depth_observer).2.1 ≠ 0 + 1 := by
  refine ⟨rfl, by decide⟩

/-- C5 amended: for every starting mutex, the debug scoped-lock executor runs
the action at depth one LESS than the starting depth (an unchecked
unlock/lock pair, not lock/unlock), and after the action completes the depth —
and the rest of the mutex — is restored to its starting value. -/
theorem C5_scoped_lock_amended (m : service_mutex_t) :
    (CCS_THREAD_SCOPED_LOCK_debug m depth_observer).2.1 = m.m_lock_debug - 1 ∧
    (CCS_THREAD_SCOPED_LOCK_debug m depth_observer).1 = m := by
  refine ⟨rfl, ?_⟩
  simp [CCS_THREAD_SCOPED_LOCK_debug, depth_observer]

/-- A call made to the platform mutex primitive, as recorded by a test
double standing in for service_mutex_lock / service_mutex_unlock. -/
inductive PlatformCall where
  | lock_call
  | unlock_call
deriving DecidableEq, Repr

/-- A mutex of the CCS_ENABLE_MULTI_THREADS build: opaque platform state of
type sigma plus the recorded trace of platform primitive invocations. -/
structure MtMutexState (σ : Type) where
  plat : σ
  calls : List PlatformCall
deriving Repr

/-- CCS_THREAD_LOCK in the CCS_ENABLE_MULTI_THREADS build: invoke
service_mutex_lock (the platform primitive lock_prim, recorded in the trace)
only when ccs_using_threads() is true. -/
def CCS_THREAD_LOCK_mt {σ : Type} (uses : Bool) (lock_prim : σ → σ)
    (s : MtMutexState σ) : MtMutexState σ :=
  if ccs_using_threads uses then
    ⟨lock_prim s.plat, s.calls ++ [PlatformCall.lock_call]⟩
  else s

/-- CCS_THREAD_UNLOCK in the CCS_ENABLE_MULTI_THREADS build: invoke
service_mutex_unlock (the platform primitive unlock_prim, recorded in the
trace) only when ccs_using_threads() is true. -/
def CCS_THREAD_UNLOCK_mt {σ : Type} (uses : Bool) (unlock_prim : σ → σ)
    (s : MtMutexState σ) : MtMutexState σ :=
  if ccs_using_threads uses then
    ⟨unlock_prim s.plat, s.calls ++ [PlatformCall.unlock_call]⟩
  else s

/-- One step of a caller's sequence of adaptive-mutex operations. -/
inductive MtOp where
  | lockOp
  | unlockOp
deriving DecidableEq, Repr

/-- Run a sequence of CCS_THREAD_LOCK / CCS_THREAD_UNLOCK operations of the
multithreaded build against a mutex. -/
def run_mt_ops {σ : Type} (uses : Bool) (lock_prim unlock_prim : σ → σ)
    (ops : List MtOp) (s : MtMutexState σ) : MtMutexState σ :=
  match ops with
  | [] => s
  | MtOp.lockOp :: rest =>
      run_mt_ops uses lock_prim unlock_prim rest (CCS_THREAD_LOCK_mt uses lock_prim s)
  | MtOp.unlockOp :: rest =>
      run_mt_ops uses lock_prim unlock_prim rest (CCS_THREAD_UNLOCK_mt uses unlock_prim s)

/-- C8: in the multithreaded build, when ccs_using_threads() is false, any
sequence of CCS_THREAD_LOCK / CCS_THREAD_UNLOCK calls never invokes the
platform primitive (the recorded trace does not grow) and leaves the mutex
state exactly as it was. -/
theorem C8_no_platform_calls_when_single_threaded {σ : Type}
    (lock_prim unlock_prim : σ → σ) (ops : List MtOp) (s : MtMutexState σ) :
    run_mt_ops false lock_prim unlock_prim ops s = s := by
  induction ops generalizing s with
  | nil => rfl
  | cons op rest ih =>
      cases op <;>
        simp [run_mt_ops, CCS_THREAD_LOCK_mt, CCS_THREAD_UNLOCK_mt,
          ccs_using_threads, ih]

/-- Wrap an integer into the int32 range, modelling two's-complement storage
of an int32_t cell. -/
def wrap32 (n : Int) : Int := (n + 2 ^ 31) % 2 ^ 32 - 2 ^ 31

/-- Wrap an integer into the int64 range, modelling two's-complement storage
of an int64_t cell. -/
def wrap64 (n : Int) : Int := (n + 2 ^ 63) % 2 ^ 64 - 2 ^ 63

/-- The non-atomic fallback branch (*x += y) of CCS_THREAD_ADD32 on an
int32_t cell holding x: the pair is (new cell contents, value of the C
expression). -/
def thread_add32_fallback (x y : Int) : Int × Int :=
  (wrap32 (x + y), wrap32 (x + y))

/-- Modelled from the spec: service_atomic_add_32, the platform atomic add,
is not part of the fragment; the spec says addAndFetch32 atomically stores
old value plus delta and returns the new value. -/
def service_atomic_add_32 (x y : Int) : Int × Int :=
  (wrap32 (x + y), wrap32 (x + y))

/-- CCS_THREAD_ADD32 of the multithreaded build: atomic add when
ccs_using_threads(), the plain (*x += y) fallback otherwise. -/
def CCS_THREAD_ADD32 (uses : Bool) (x y : Int) : Int × Int :=
  if ccs_using_threads uses then service_atomic_add_32 x y
  else thread_add32_fallback x y

/-- The non-atomic fallback branch (*x += y) of CCS_THREAD_ADD64 on an
int64_t cell holding x. -/
def thread_add64_fallback (x y : Int) : Int × Int :=
  (wrap64 (x + y), wrap64 (x + y))

/-- Modelled from the spec: service_atomic_add_64, the platform atomic add,
is not part of the fragment; the spec says addAndFetch64 atomically stores
old value plus delta and returns the new value. -/
def service_atomic_add_64 (x y : Int) : Int × Int :=
  (wrap64 (x + y), wrap64 (x + y))

/-- CCS_THREAD_ADD64 of the multithreaded build: atomic add when
ccs_using_threads(), the plain (*x += y) fallback otherwise. -/
def CCS_THREAD_ADD64 (uses : Bool) (x y : Int) : Int × Int :=
  if ccs_using_threads uses then service_atomic_add_64 x y
  else thread_add64_fallback x y

/-- The non-atomic fallback branch (*x += y) of CCS_THREAD_ADD_SIZE_T on a
64-bit size_t cell holding x (unsigned, wraps modulo 2 to the 64). -/
def thread_add_size_t_fallback (x y : Nat) : Nat × Nat :=
  ((x + y) % 2 ^ 64, (x + y) % 2 ^ 64)

/-- Modelled from the spec: service_atomic_add_size_t, the platform atomic
add, is not part of the fragment; the spec says addAndFetchSize atomically
stores old value plus delta and returns the new value. -/
def service_atomic_add_size_t (x y : Nat) : Nat × Nat :=
  ((x + y) % 2 ^ 64, (x + y) % 2 ^ 64)

/-- CCS_THREAD_ADD_SIZE_T of the multithreaded build: atomic add when
ccs_using_threads(), the plain (*x += y) fallback otherwise. -/
def CCS_THREAD_ADD_SIZE_T (uses : Bool) (x y : Nat) : Nat × Nat :=
  if ccs_using_threads uses then service_atomic_add_size_t x y
  else thread_add_size_t_fallback x y

/-- C9: with the thread hint false, each CCS_THREAD_ADD macro takes the
non-atomic (*x += y) branch, which stores old value plus delta (wrapped at
the cell's width) and evaluates to that new value — exactly the result of the
atomic path, so a single-threaded caller cannot distinguish the two. -/
theorem C9_add_fallback_matches_atomic (x y : Int) (n k : Nat) :
    (CCS_THREAD_ADD32 false x y = service_atomic_add_32 x y ∧
     CCS_THREAD_ADD32 false x y = (wrap32 (x + y), wrap32 (x + y))) ∧
    (CCS_THREAD_ADD64 false x y = service_atomic_add_64 x y ∧
     CCS_THREAD_ADD64 false x y = (wrap64 (x + y), wrap64 (x + y))) ∧
    (CCS_THREAD_ADD_SIZE_T false n k = service_atomic_add_size_t n k ∧
     CCS_THREAD_ADD_SIZE_T false n k = ((n + k) % 2 ^ 64, (n + k) % 2 ^ 64)) :=
  ⟨⟨rfl, rfl⟩, ⟨rfl, rfl⟩, ⟨rfl, rfl⟩⟩

/-- The CCS_CMPSET macro on a cell holding x, expected value y and new value
z: the pair is (new cell contents, value of the C conditional expression —
1 on success, 0 on failure). -/
def CCS_CMPSET (x y z : Int) : Int × Int :=
  if x = y then (z, 1) else (x, 0)

/-- C3: the non-atomic compare-and-set fallback reports success (1) iff the
current cell value equals the expected value, stores the new value exactly in
that case, and on mismatch leaves the cell unchanged and reports failure (0). -/
theorem C3_cmpset (x y z : Int) :
    ((CCS_CMPSET x y z).2 = 1 ↔ x = y) ∧
    ((CCS_CMPSET x y z).2 = 0 ↔ ¬x = y) ∧
    (CCS_CMPSET x y z).1 = (if x = y then z else x) := by
  by_cases h : x = y <;> simp [CCS_CMPSET, h]
